import Mathlib

/-!
# Email and phishing URL detector: view state and result classification

A shallow embedding of the React client under `src/frontend/src`:

* the score and risk classification helpers of `EmailValidator.js`,
  `PhishingDetector.js` and `SecurityScore.js`, over integer scores;
* the values a decoded JSON response can hold, with the JavaScript rules for
  truthiness and property reads that the components rely on;
* the three asynchronous operations `validateEmail`, `detectPhishing` and
  `analyzeSecurity`, as programs that emit their state updates and their
  request in order, run against every way the request can settle;
* the parts of the rendered result sections that depend on the result;
* the navigation state of `App.js`, the mounting of a page component and the
  mount effect of the security view.
-/

namespace PhishGuard

/-! ## JavaScript values -/

/-- Values held by the components: what `JSON.parse` can produce, plus
`undefined` (the value of an absent property). Numbers are the integers. -/
inductive JSValue where
  | undefined : JSValue
  | null : JSValue
  | bool (b : Bool) : JSValue
  | number (n : Int) : JSValue
  | string (s : String) : JSValue
  | array (items : List JSValue) : JSValue
  | object (fields : List (String × JSValue)) : JSValue

/-- Exceptions the modelled code can meet. -/
inductive JSError where
  /-- the promise returned by `fetch` rejects (transport failure) -/
  | fetchFailed : JSError
  /-- the promise returned by `response.json()` rejects -/
  | bodyUndecodable : JSError
  /-- a property of `null` or `undefined` is read, or a non-function is called -/
  | typeError : JSError
  deriving DecidableEq, Repr

namespace JSValue

/-- JavaScript truthiness (`ToBoolean`): `undefined`, `null`, `false`, `0`
and the empty string are falsy, every other value is truthy. -/
def truthy : JSValue → Bool
  | undefined => false
  | null => false
  | bool b => b
  | number n => n != 0
  | string s => s != ""
  | array _ => true
  | object _ => true

/-- Property read `v.key`: a `TypeError` on `null` and `undefined`; the own
field of an object (the last one when a key is repeated, as `JSON.parse`
keeps it), `length` of a string or an array; `undefined` otherwise. -/
def getProp (v : JSValue) (key : String) : Except JSError JSValue :=
  match v with
  | undefined => .error .typeError
  | null => .error .typeError
  | object fields => .ok ((fields.reverse.lookup key).getD undefined)
  | string s => .ok (if key = "length" then number s.length else undefined)
  | array items => .ok (if key = "length" then number items.length else undefined)
  | bool _ => .ok undefined
  | number _ => .ok undefined

/-- Logical or, `a || b`. -/
def or (a b : JSValue) : JSValue :=
  if a.truthy then a else b

/-- The integer held by a number value. The comparisons `score >= 80` of the
classification helpers are modelled on integers only. -/
def asInt? : JSValue → Option Int
  | number n => some n
  | _ => none

end JSValue

/-! ## Classification helpers -/

namespace EmailValidator

/-- `getScoreColor` of `EmailValidator.js`. -/
def getScoreColor (score : Int) : String :=
  if score ≥ 80 then "#10b981"
  else if score ≥ 60 then "#f59e0b"
  else "#ef4444"

/-- `getScoreLevel` of `EmailValidator.js`. -/
def getScoreLevel (score : Int) : String :=
  if score ≥ 80 then "Excellent"
  else if score ≥ 60 then "Good"
  else if score ≥ 40 then "Fair"
  else "Poor"

end EmailValidator

namespace PhishingDetector

/-- `getRiskColor` of `PhishingDetector.js`. -/
def getRiskColor (score : Int) : String :=
  if score ≥ 80 then "#ef4444"
  else if score ≥ 60 then "#f59e0b"
  else if score ≥ 40 then "#d97706"
  else "#10b981"

/-- `getRiskLevel` of `PhishingDetector.js`. -/
def getRiskLevel (score : Int) : String :=
  if score ≥ 80 then "Critical Risk"
  else if score ≥ 60 then "High Risk"
  else if score ≥ 40 then "Medium Risk"
  else "Low Risk"

/-- `getRiskIcon` of `PhishingDetector.js`. -/
def getRiskIcon (score : Int) : String :=
  if score ≥ 80 then "fas fa-radiation"
  else if score ≥ 60 then "fas fa-exclamation-triangle"
  else if score ≥ 40 then "fas fa-exclamation-circle"
  else "fas fa-check-circle"

end PhishingDetector

namespace SecurityScore

/-- `getScoreClass` of `SecurityScore.js`. -/
def getScoreClass (score : Int) : String :=
  if score ≥ 80 then "score-excellent"
  else if score ≥ 60 then "score-good"
  else if score ≥ 40 then "score-fair"
  else "score-poor"

/-- `getScoreColor` of `SecurityScore.js`. -/
def getScoreColor (score : Int) : String :=
  if score ≥ 80 then "#10b981"
  else if score ≥ 60 then "#f59e0b"
  else "#ef4444"

/-- `getScoreLabel` of `SecurityScore.js`. -/
def getScoreLabel (score : Int) : String :=
  if score ≥ 80 then "Excellent"
  else if score ≥ 60 then "Good"
  else if score ≥ 40 then "Fair"
  else "Poor"

end SecurityScore

/-! ## Requests, effects and runs -/

/-- The three requests of the client, by what they carry:
`POST /api/validate-email` with body `{email}`, `POST /api/detect-phishing`
with body `{url}`, and `GET /api/security-score/<emailToAnalyze>`. -/
inductive Request where
  | validateEmail (email : String) : Request
  | detectPhishing (url : String) : Request
  | securityScore (emailToAnalyze : String) : Request
  deriving DecidableEq, Repr

/-- What an operation does to the outside, in order: calls of the state
setters of the three components, the request, `console.error`, and the call
`onNavigate(page)` of the navigation capability. -/
inductive Effect where
  | setEmail (email : String) : Effect
  | setLoading (loading : Bool) : Effect
  | setResult (result : JSValue) : Effect
  | setSimilarEmails (similarEmails : JSValue) : Effect
  | setAnalysis (analysis : JSValue) : Effect
  | fetch (req : Request) : Effect
  | consoleError (error : JSError) : Effect
  | navigate (page : String) : Effect

/-- How the request of an operation settles: `fetch` rejects, or it resolves
and `response.json()` rejects, or the body decodes to `data`. -/
inductive Settlement where
  | rejected : Settlement
  | undecodable : Settlement
  | decoded (data : JSValue) : Settlement

/-- A completed run of JavaScript code: the effects it emitted, in order, and
the value it produced or the exception it threw. -/
structure JS (α : Type) where
  trace : List Effect
  completion : Except JSError α

namespace JS

/-- Sequencing: the second part runs only when the first did not throw. -/
def bind {α β : Type} (m : JS α) (f : α → JS β) : JS β :=
  match m.completion with
  | .error e => ⟨m.trace, .error e⟩
  | .ok a => ⟨m.trace ++ (f a).trace, (f a).completion⟩

instance : Monad JS where
  pure a := ⟨[], .ok a⟩
  bind := bind

/-- Emit one effect. -/
def emit (e : Effect) : JS Unit := ⟨[e], .ok ()⟩

/-- A step that produces a value or throws, emitting nothing. -/
def lift {α : Type} (x : Except JSError α) : JS α := ⟨[], x⟩

/-- The statement `try { body } catch (error) { handler }`. -/
def tryCatch {α : Type} (body : JS α) (handler : JSError → JS α) : JS α :=
  match body.completion with
  | .ok a => ⟨body.trace, .ok a⟩
  | .error e => ⟨body.trace ++ (handler e).trace, (handler e).completion⟩

end JS

/-- The call `await fetch(...)`: the request is issued, then the promise
rejects or resolves to a response that carries the settlement. -/
def fetch (req : Request) (settle : Settlement) : JS Settlement :=
  match settle with
  | .rejected => ⟨[.fetch req], .error .fetchFailed⟩
  | response => ⟨[.fetch req], .ok response⟩

/-- The call `await response.json()`. -/
def Settlement.json : Settlement → JS JSValue
  | .decoded data => pure data
  | _ => JS.lift (.error .bodyUndecodable)

/-! ## Email validator -/

namespace EmailValidator

/-- The four `useState` slots of `EmailValidator`, with their initial values. -/
structure State where
  email : String := ""
  result : JSValue := .null
  loading : Bool := false
  similarEmails : JSValue := .array []

/-- A state setter call applied to the component state. -/
def State.apply (s : State) : Effect → State
  | .setEmail email => { s with email := email }
  | .setLoading loading => { s with loading := loading }
  | .setResult result => { s with result := result }
  | .setSimilarEmails similarEmails => { s with similarEmails := similarEmails }
  | _ => s

/-- The state after the setter calls of a trace, in order. -/
def State.run (s : State) (trace : List Effect) : State :=
  trace.foldl State.apply s

/-- `validateEmail` of `EmailValidator.js`; `!email` on a string is
`email = ""`. -/
def validateEmail (s : State) (settle : Settlement) : JS Unit :=
  if s.email = "" then pure () else do
    JS.emit (.setLoading true)
    JS.tryCatch
      (do
        let response ← fetch (.validateEmail s.email) settle
        let data ← response.json
        JS.emit (.setResult data)
        let similar_emails ← JS.lift (data.getProp "similar_emails")
        JS.emit (.setSimilarEmails (similar_emails.or (.array []))))
      (fun error => do
        JS.emit (.consoleError error)
        JS.emit (.setResult (.object [
          ("valid", .bool false),
          ("message", .string "Error validating email"),
          ("score", .number 0),
          ("is_phishing", .bool false)]))
        JS.emit (.setSimilarEmails (.array [])))
    JS.emit (.setLoading false)

/-- `getStatusIcon` of `EmailValidator.js`. -/
def getStatusIcon (result : JSValue) : Except JSError String := do
  if (← result.getProp "is_phishing").truthy then pure "fas fa-skull-crossbones"
  else if (← result.getProp "valid").truthy then pure "fas fa-check-circle"
  else pure "fas fa-exclamation-triangle"

/-- `getStatusColor` of `EmailValidator.js`. -/
def getStatusColor (result : JSValue) : Except JSError String := do
  if (← result.getProp "is_phishing").truthy then pure "#ef4444"
  else if (← result.getProp "valid").truthy then pure "#10b981"
  else pure "#f59e0b"

/-- `getStatusText` of `EmailValidator.js`. -/
def getStatusText (result : JSValue) : Except JSError String := do
  if (← result.getProp "is_phishing").truthy then pure "Phishing Detected"
  else if (← result.getProp "valid").truthy then pure "Valid Email"
  else pure "Validation Warning"

/-- The class the result section gets next to `result-section`
(`EmailValidator.js`, lines 122 to 125). -/
def resultSectionClass (result : JSValue) : Except JSError String := do
  if (← result.getProp "is_phishing").truthy then pure "result-danger"
  else if (← result.getProp "valid").truthy then pure "result-success"
  else pure "result-warning"

/-- The guard `result && (...)` of the results container. -/
def showsResult (s : State) : Bool := s.result.truthy

/-- The text of the `result-message` paragraph, `result.message`. -/
def resultMessage (result : JSValue) : Except JSError JSValue :=
  result.getProp "message"

/-- `navigateToSecurity` of `EmailValidator.js`:
`if (result && !result.is_phishing) onNavigate('security')`. -/
def navigateToSecurity (s : State) : JS Unit :=
  if s.result.truthy then do
    let is_phishing ← JS.lift (s.result.getProp "is_phishing")
    if !is_phishing.truthy then JS.emit (.navigate "security") else pure ()
  else pure ()

/-- The guard `!result.is_phishing && (...)` of the score display
(`EmailValidator.js`, lines 139 to 146). -/
def showsScoreDisplay (result : JSValue) : Except JSError Bool := do
  pure (!(← result.getProp "is_phishing").truthy)

/-- The level the score display is labelled with,
`getScoreLevel(result.score)`, for an integer score. -/
def scoreDisplayLevel (result : JSValue) : Except JSError (Option String) := do
  pure ((← result.getProp "score").asInt?.map getScoreLevel)

/-- The background colour of the score display,
`getScoreColor(result.score)`, for an integer score. -/
def scoreDisplayColor (result : JSValue) : Except JSError (Option String) := do
  pure ((← result.getProp "score").asInt?.map getScoreColor)

/-- The guard `!result.is_phishing && result.valid && (...)` of the action
buttons (`EmailValidator.js`, lines 201 to 211): whether the button
'View Detailed Security Analysis' is rendered. -/
def showsActionButtons (result : JSValue) : Except JSError Bool := do
  if !(← result.getProp "is_phishing").truthy then
    pure (← result.getProp "valid").truthy
  else pure false

/-- The pages the `onNavigate` calls of `EmailValidator.js` carry. -/
def navigationRequests : List String := ["security", "home"]

end EmailValidator

/-! ## Phishing detector -/

namespace PhishingDetector

/-- The three `useState` slots of `PhishingDetector`, with their initial
values. -/
structure State where
  url : String := ""
  result : JSValue := .null
  loading : Bool := false

/-- A state setter call applied to the component state. -/
def State.apply (s : State) : Effect → State
  | .setLoading loading => { s with loading := loading }
  | .setResult result => { s with result := result }
  | _ => s

/-- The state after the setter calls of a trace, in order. -/
def State.run (s : State) (trace : List Effect) : State :=
  trace.foldl State.apply s

/-- `detectPhishing` of `PhishingDetector.js`; `!url` on a string is
`url = ""`. -/
def detectPhishing (s : State) (settle : Settlement) : JS Unit :=
  if s.url = "" then pure () else do
    JS.emit (.setLoading true)
    JS.tryCatch
      (do
        let response ← fetch (.detectPhishing s.url) settle
        let data ← response.json
        JS.emit (.setResult data))
      (fun error => do
        JS.emit (.consoleError error)
        JS.emit (.setResult (.object [
          ("is_phishing", .bool false),
          ("risk_score", .number 0),
          ("warnings", .array [.string "Error analyzing URL"]),
          ("domain", .string "unknown")])))
    JS.emit (.setLoading false)

/-- The guard `result && (...)` of the result section. -/
def showsResult (s : State) : Bool := s.result.truthy

/-- The class the result section gets next to `result-section`
(`PhishingDetector.js`, line 98). -/
def resultSectionClass (result : JSValue) : Except JSError String := do
  if (← result.getProp "is_phishing").truthy then pure "result-danger"
  else pure "result-safe"

/-- The class of the result icon, `getRiskIcon(result.risk_score)`, for an
integer risk score. -/
def resultIcon (result : JSValue) : Except JSError (Option String) := do
  pure ((← result.getProp "risk_score").asInt?.map getRiskIcon)

/-- The colour of icon, title and score display,
`getRiskColor(result.risk_score)`, for an integer risk score. -/
def resultColor (result : JSValue) : Except JSError (Option String) := do
  pure ((← result.getProp "risk_score").asInt?.map getRiskColor)

/-- The result title, `getRiskLevel(result.risk_score)`, for an integer risk
score. -/
def resultTitle (result : JSValue) : Except JSError (Option String) := do
  pure ((← result.getProp "risk_score").asInt?.map getRiskLevel)

/-- The items of the warnings section,
`result.warnings.length > 0 && (... result.warnings.map(...) ...)`, for a
`warnings` array: its items, and no section when it is empty. The read of
`length` throws when `warnings` is absent or `null`; other values than an
array are not modelled (`none`). -/
def warningItems (result : JSValue) : Except JSError (Option (List JSValue)) := do
  let warnings ← result.getProp "warnings"
  let _length ← warnings.getProp "length"
  match warnings with
  | .array items => pure (some (if items.length > 0 then items else []))
  | _ => pure none

/-- The pages the `onNavigate` calls of `PhishingDetector.js` carry. -/
def navigationRequests : List String := ["home"]

end PhishingDetector

/-! ## Security score -/

namespace SecurityScore

/-- The three `useState` slots of `SecurityScore`, with their initial
values. -/
structure State where
  email : String := ""
  analysis : JSValue := .null
  loading : Bool := false

/-- A state setter call applied to the component state. -/
def State.apply (s : State) : Effect → State
  | .setEmail email => { s with email := email }
  | .setLoading loading => { s with loading := loading }
  | .setAnalysis analysis => { s with analysis := analysis }
  | _ => s

/-- The state after the setter calls of a trace, in order. -/
def State.run (s : State) (trace : List Effect) : State :=
  trace.foldl State.apply s

/-- `analyzeSecurity` of `SecurityScore.js`. The argument is `none` when the
function is called without one (the button), and the parameter then defaults
to the `email` slot; `!emailToAnalyze` on a string is `emailToAnalyze = ""`. -/
def analyzeSecurity (s : State) (arg : Option String) (settle : Settlement) : JS Unit :=
  let emailToAnalyze := arg.getD s.email
  if emailToAnalyze = "" then pure () else do
    JS.emit (.setLoading true)
    JS.tryCatch
      (do
        let response ← fetch (.securityScore emailToAnalyze) settle
        let data ← response.json
        JS.emit (.setAnalysis data))
      (fun error => do
        JS.emit (.consoleError error))
    JS.emit (.setLoading false)

/-- The guard `!analysis && (...)` of the input section (the form). -/
def showsInputForm (s : State) : Bool := !s.analysis.truthy

/-- The guard `analysis && (...)` of the analysis section. -/
def showsAnalysis (s : State) : Bool := s.analysis.truthy

/-- The effect passed to `useEffect` in `SecurityScore.js`. `emailParam` is
`urlParams.get('email')` for the query string of the page: `none` for `null`
(no such parameter); `if (emailParam)` fails on `null` and on the empty
string. -/
def mountEffect (s : State) (emailParam : Option String) (settle : Settlement) : JS Unit :=
  match emailParam with
  | none => pure ()
  | some emailParam =>
    if emailParam = "" then pure () else do
      JS.emit (.setEmail emailParam)
      analyzeSecurity s (some emailParam) settle

/-- What runs after render number `render` of a mounted `SecurityScore`
(render 0 is the mount): `useEffect(..., [])` has the empty dependency array,
so its effect runs after the first render only. -/
def effectsAfterRender (s : State) (emailParam : Option String) (settle : Settlement)
    (render : Nat) : JS Unit :=
  if render = 0 then mountEffect s emailParam settle else pure ()

/-- Everything a `SecurityScore` emits from its mount through `rerenders`
further renders, each render seeing the state the setters so far produced. -/
def lifecycleTrace (emailParam : Option String) (settle : Settlement) : Nat → List Effect
  | 0 => (effectsAfterRender {} emailParam settle 0).trace
  | rerenders + 1 =>
    lifecycleTrace emailParam settle rerenders ++
      (effectsAfterRender (State.run {} (lifecycleTrace emailParam settle rerenders))
        emailParam settle (rerenders + 1)).trace

/-- The state of a `SecurityScore` once mounted: the initial values of its
slots, then the setter calls of the mount effect. -/
def mount (emailParam : Option String) (settle : Settlement) : State :=
  State.run {} (mountEffect {} emailParam settle).trace

/-- The pages the `onNavigate` calls of `SecurityScore.js` carry. -/
def navigationRequests : List String := ["home", "validator"]

end SecurityScore

/-- The requests issued in a trace, in order. -/
def requests (trace : List Effect) : List Request :=
  trace.filterMap fun
    | .fetch req => some req
    | _ => none

/-! ## Navigation -/

namespace Navbar

/-- The pages the `onNavigate` calls of `Navbar.js` carry. -/
def navigationRequests : List String := ["home", "phishing", "validator", "security"]

end Navbar

namespace Home

/-- The pages the `onNavigate` calls of `Home.js` carry. -/
def navigationRequests : List String := ["phishing", "validator", "security"]

end Home

namespace App

/-- The page components of `App.js`. -/
inductive Component where
  | Home : Component
  | PhishingDetector : Component
  | EmailValidator : Component
  | SecurityScore : Component
  deriving DecidableEq, Repr

/-- `renderPage` of `App.js`: the component shown for `currentPage`. -/
def renderPage (currentPage : String) : Component :=
  if currentPage = "home" then .Home
  else if currentPage = "phishing" then .PhishingDetector
  else if currentPage = "validator" then .EmailValidator
  else if currentPage = "security" then .SecurityScore
  else .Home

/-- The mounted page component with its local state (`Home` has none). -/
inductive Mounted where
  | home : Mounted
  | phishing (s : PhishingDetector.State) : Mounted
  | validator (s : EmailValidator.State) : Mounted
  | security (s : SecurityScore.State) : Mounted

/-- The component a mounted page is an instance of. -/
def Mounted.component : Mounted → Component
  | .home => .Home
  | .phishing _ => .PhishingDetector
  | .validator _ => .EmailValidator
  | .security _ => .SecurityScore

/-- The `email` slot of a mounted `SecurityScore`. -/
def Mounted.securityEmail? : Mounted → Option String
  | .security s => some s.email
  | _ => none

/-- Mounting a page component: its slots take their initial values, and
`SecurityScore` runs its mount effect. -/
def mount (c : Component) (emailParam : Option String) (settle : Settlement) : Mounted :=
  match c with
  | .Home => .home
  | .PhishingDetector => .phishing {}
  | .EmailValidator => .validator {}
  | .SecurityScore => .security (SecurityScore.mount emailParam settle)

/-- The state of `App`: the `currentPage` slot (`useState('home')`) and the
page component mounted for it. -/
structure State where
  currentPage : String := "home"
  mounted : Mounted := .home

/-- `setCurrentPage(page)`, the `onNavigate` capability handed to `Navbar` and
to every page: when `renderPage` yields another component the old one is
unmounted and the new one mounted; an instance of the same component is
kept. `emailParam` is the `email` parameter of the page URL, which no
navigation changes, and `settle` the settlement of the request a mount may
issue. -/
def setCurrentPage (app : State) (emailParam : Option String) (settle : Settlement)
    (page : String) : State :=
  { currentPage := page
    mounted :=
      if renderPage page = app.mounted.component then app.mounted
      else mount (renderPage page) emailParam settle }

/-- What mounting a page component emits: `SecurityScore` runs the effect of
its `useEffect` on its initial state; `Home`, `PhishingDetector` and
`EmailValidator` have no effect hook. -/
def mountEffects (c : Component) (emailParam : Option String) (settle : Settlement) :
    List Effect :=
  match c with
  | .SecurityScore => (SecurityScore.mountEffect {} emailParam settle).trace
  | _ => []

/-- What `setCurrentPage(page)` makes the page components emit: the mount
effects of the component it mounts, and nothing when the instance is kept. -/
def navigationEffects (app : State) (emailParam : Option String) (settle : Settlement)
    (page : String) : List Effect :=
  if renderPage page = app.mounted.component then []
  else mountEffects (renderPage page) emailParam settle

/-- The `onNavigate` calls of a trace applied to the state of `App`. -/
def State.run (app : State) (emailParam : Option String) (settle : Settlement)
    (trace : List Effect) : State :=
  trace.foldl (fun app effect =>
    match effect with
    | .navigate page => setCurrentPage app emailParam settle page
    | _ => app) app

end App

/-! ## Score and risk tiers -/

/-- C1. For every integer score, `getScoreLevel` of the email validator and
`getScoreLabel` of the security score view return 'Excellent' from 80 up,
'Good' from 60 to 79, 'Fair' from 40 to 59 and 'Poor' below 40 (negative
scores and scores above 100 included); the two agree, the label is one of the
four, 79 and 80 get different labels and 0 is 'Poor'. -/
theorem score_label_tiers (s : Int) :
    (80 ≤ s → EmailValidator.getScoreLevel s = "Excellent"
        ∧ SecurityScore.getScoreLabel s = "Excellent")
    ∧ (60 ≤ s → s < 80 → EmailValidator.getScoreLevel s = "Good"
        ∧ SecurityScore.getScoreLabel s = "Good")
    ∧ (40 ≤ s → s < 60 → EmailValidator.getScoreLevel s = "Fair"
        ∧ SecurityScore.getScoreLabel s = "Fair")
    ∧ (s < 40 → EmailValidator.getScoreLevel s = "Poor"
        ∧ SecurityScore.getScoreLabel s = "Poor")
    ∧ EmailValidator.getScoreLevel s = SecurityScore.getScoreLabel s
    ∧ (80 ≤ s ∨ (60 ≤ s ∧ s < 80) ∨ (40 ≤ s ∧ s < 60) ∨ s < 40)
    ∧ EmailValidator.getScoreLevel 79 ≠ EmailValidator.getScoreLevel 80
    ∧ SecurityScore.getScoreLabel 79 ≠ SecurityScore.getScoreLabel 80
    ∧ EmailValidator.getScoreLevel 0 = "Poor"
    ∧ SecurityScore.getScoreLabel 0 = "Poor" := by
  refine ⟨?_, ?_, ?_, ?_, ?_, ?_, by decide, by decide, by decide, by decide⟩
  · intro h
    simp [EmailValidator.getScoreLevel, SecurityScore.getScoreLabel, h]
  · intro h h'
    have h80 : ¬ 80 ≤ s := by omega
    simp [EmailValidator.getScoreLevel, SecurityScore.getScoreLabel, h, h80]
  · intro h h'
    have h80 : ¬ 80 ≤ s := by omega
    have h60 : ¬ 60 ≤ s := by omega
    simp [EmailValidator.getScoreLevel, SecurityScore.getScoreLabel, h, h80, h60]
  · intro h
    have h80 : ¬ 80 ≤ s := by omega
    have h60 : ¬ 60 ≤ s := by omega
    have h40 : ¬ 40 ≤ s := by omega
    simp [EmailValidator.getScoreLevel, SecurityScore.getScoreLabel, h80, h60, h40]
  · rfl
  · omega

/-- Witness for C1: the four tiers at 85, 60, 59 and -3. -/
theorem score_label_tiers_witness :
    EmailValidator.getScoreLevel 85 = "Excellent"
    ∧ SecurityScore.getScoreLabel 60 = "Good"
    ∧ EmailValidator.getScoreLevel 59 = "Fair"
    ∧ SecurityScore.getScoreLabel (-3) = "Poor" :=
  ⟨((score_label_tiers 85).1 (by decide)).1,
   ((score_label_tiers 60).2.1 (by decide) (by decide)).2,
   ((score_label_tiers 59).2.2.1 (by decide) (by decide)).1,
   ((score_label_tiers (-3)).2.2.2.1 (by decide)).2⟩

/-- C2. For every integer risk value, `getRiskLevel` returns 'Critical Risk'
from 80 up, 'High Risk' from 60 to 79, 'Medium Risk' from 40 to 59 and
'Low Risk' below 40; `getRiskIcon` and `getRiskColor` split the integers at
the same boundaries: two risk values get the same label exactly when they get
the same icon, and exactly when they get the same colour. 65 is 'High Risk'
and 0 is 'Low Risk'. -/
theorem risk_tiers (r : Int) :
    (80 ≤ r → PhishingDetector.getRiskLevel r = "Critical Risk")
    ∧ (60 ≤ r → r < 80 → PhishingDetector.getRiskLevel r = "High Risk")
    ∧ (40 ≤ r → r < 60 → PhishingDetector.getRiskLevel r = "Medium Risk")
    ∧ (r < 40 → PhishingDetector.getRiskLevel r = "Low Risk")
    ∧ (∀ r' : Int, PhishingDetector.getRiskLevel r = PhishingDetector.getRiskLevel r'
        ↔ PhishingDetector.getRiskIcon r = PhishingDetector.getRiskIcon r')
    ∧ (∀ r' : Int, PhishingDetector.getRiskLevel r = PhishingDetector.getRiskLevel r'
        ↔ PhishingDetector.getRiskColor r = PhishingDetector.getRiskColor r')
    ∧ PhishingDetector.getRiskLevel 65 = "High Risk"
    ∧ PhishingDetector.getRiskLevel 0 = "Low Risk" := by
  refine ⟨?_, ?_, ?_, ?_, ?_, ?_, by decide, by decide⟩
  · intro h
    simp [PhishingDetector.getRiskLevel, h]
  · intro h h'
    have h80 : ¬ 80 ≤ r := by omega
    simp [PhishingDetector.getRiskLevel, h, h80]
  · intro h h'
    have h80 : ¬ 80 ≤ r := by omega
    have h60 : ¬ 60 ≤ r := by omega
    simp [PhishingDetector.getRiskLevel, h, h80, h60]
  · intro h
    have h80 : ¬ 80 ≤ r := by omega
    have h60 : ¬ 60 ≤ r := by omega
    have h40 : ¬ 40 ≤ r := by omega
    simp [PhishingDetector.getRiskLevel, h80, h60, h40]
  · intro r'
    simp only [PhishingDetector.getRiskLevel, PhishingDetector.getRiskIcon]
    split_ifs <;> simp
  · intro r'
    simp only [PhishingDetector.getRiskLevel, PhishingDetector.getRiskColor]
    split_ifs <;> simp

/-- Witness for C2: the four risk tiers at 100, 65, 40 and 0. -/
theorem risk_tiers_witness :
    PhishingDetector.getRiskLevel 100 = "Critical Risk"
    ∧ PhishingDetector.getRiskLevel 65 = "High Risk"
    ∧ PhishingDetector.getRiskLevel 40 = "Medium Risk"
    ∧ PhishingDetector.getRiskLevel 0 = "Low Risk" :=
  ⟨(risk_tiers 100).1 (by decide),
   (risk_tiers 65).2.1 (by decide) (by decide),
   (risk_tiers 40).2.2.1 (by decide) (by decide),
   (risk_tiers 0).2.2.2.1 (by decide)⟩

/-- C8, as stated, fails: a risk score of 65 is coloured `#f59e0b`, not the
darker `#d97706`, and a risk score of 45 is coloured `#d97706`, not
`#f59e0b`. -/
theorem risk_color_65_not_amber_dark :
    PhishingDetector.getRiskColor 65 = "#f59e0b"
    ∧ PhishingDetector.getRiskColor 65 ≠ "#d97706"
    ∧ PhishingDetector.getRiskColor 45 = "#d97706"
    ∧ PhishingDetector.getRiskColor 45 ≠ "#f59e0b" := by
  decide

/-- C8, amended. For every integer risk value, `getRiskColor` returns red
`#ef4444` from 80 up, amber `#f59e0b` from 60 to 79, the darker amber
`#d97706` from 40 to 59 and green `#10b981` below 40. -/
theorem risk_color_tiers (r : Int) :
    (80 ≤ r → PhishingDetector.getRiskColor r = "#ef4444")
    ∧ (60 ≤ r → r < 80 → PhishingDetector.getRiskColor r = "#f59e0b")
    ∧ (40 ≤ r → r < 60 → PhishingDetector.getRiskColor r = "#d97706")
    ∧ (r < 40 → PhishingDetector.getRiskColor r = "#10b981") := by
  refine ⟨?_, ?_, ?_, ?_⟩
  · intro h
    simp [PhishingDetector.getRiskColor, h]
  · intro h h'
    have h80 : ¬ 80 ≤ r := by omega
    simp [PhishingDetector.getRiskColor, h, h80]
  · intro h h'
    have h80 : ¬ 80 ≤ r := by omega
    have h60 : ¬ 60 ≤ r := by omega
    simp [PhishingDetector.getRiskColor, h, h80, h60]
  · intro h
    have h80 : ¬ 80 ≤ r := by omega
    have h60 : ¬ 60 ≤ r := by omega
    have h40 : ¬ 40 ≤ r := by omega
    simp [PhishingDetector.getRiskColor, h80, h60, h40]

/-- Witness for the amended C8: the four colours at 80, 65, 45 and 39. -/
theorem risk_color_tiers_witness :
    PhishingDetector.getRiskColor 80 = "#ef4444"
    ∧ PhishingDetector.getRiskColor 65 = "#f59e0b"
    ∧ PhishingDetector.getRiskColor 45 = "#d97706"
    ∧ PhishingDetector.getRiskColor 39 = "#10b981" :=
  ⟨(risk_color_tiers 80).1 (by decide),
   (risk_color_tiers 65).2.1 (by decide) (by decide),
   (risk_color_tiers 45).2.2.1 (by decide) (by decide),
   (risk_color_tiers 39).2.2.2 (by decide)⟩

/-- C9, as stated, fails: in the email validator a 'Fair' score of 50 is
coloured red `#ef4444`, not amber, and differs in colour from the 'Good'
score 70. -/
theorem fair_score_color_is_red :
    EmailValidator.getScoreLevel 50 = "Fair"
    ∧ EmailValidator.getScoreColor 50 = "#ef4444"
    ∧ EmailValidator.getScoreColor 50 ≠ "#f59e0b"
    ∧ EmailValidator.getScoreLevel 70 = "Good"
    ∧ EmailValidator.getScoreColor 50 ≠ EmailValidator.getScoreColor 70 := by
  decide

/-- C9, amended. In the email validator, for every integer score,
`getScoreColor` is green `#10b981` from 80 up, amber `#f59e0b` from 60 to 79
and red `#ef4444` below 60: a 'Fair' score (40 to 59) gets the colour of a
'Poor' score, and only 'Good' scores are amber. -/
theorem score_color_tiers (s : Int) :
    (80 ≤ s → EmailValidator.getScoreColor s = "#10b981")
    ∧ (60 ≤ s → s < 80 → EmailValidator.getScoreColor s = "#f59e0b")
    ∧ (s < 60 → EmailValidator.getScoreColor s = "#ef4444")
    ∧ (EmailValidator.getScoreLevel s = "Fair" →
        ∀ p : Int, EmailValidator.getScoreLevel p = "Poor" →
          EmailValidator.getScoreColor s = EmailValidator.getScoreColor p)
    ∧ (EmailValidator.getScoreColor s = "#f59e0b" ↔ EmailValidator.getScoreLevel s = "Good") := by
  refine ⟨?_, ?_, ?_, ?_, ?_⟩
  · intro h
    simp [EmailValidator.getScoreColor, h]
  · intro h h'
    have h80 : ¬ 80 ≤ s := by omega
    simp [EmailValidator.getScoreColor, h, h80]
  · intro h
    have h80 : ¬ 80 ≤ s := by omega
    have h60 : ¬ 60 ≤ s := by omega
    simp [EmailValidator.getScoreColor, h80, h60]
  · simp only [EmailValidator.getScoreLevel, EmailValidator.getScoreColor]
    intro hs p hp
    split_ifs at hs hp ⊢ <;> simp_all
  · simp only [EmailValidator.getScoreLevel, EmailValidator.getScoreColor]
    split_ifs <;> simp

/-- Witness for the amended C9: the colours at 85, 70 and 50, and the 'Fair'
score 50 coloured as the 'Poor' score 10. -/
theorem score_color_tiers_witness :
    EmailValidator.getScoreColor 85 = "#10b981"
    ∧ EmailValidator.getScoreColor 70 = "#f59e0b"
    ∧ EmailValidator.getScoreColor 50 = "#ef4444"
    ∧ EmailValidator.getScoreColor 50 = EmailValidator.getScoreColor 10 :=
  ⟨(score_color_tiers 85).1 (by decide),
   (score_color_tiers 70).2.1 (by decide) (by decide),
   (score_color_tiers 50).2.2.1 (by decide),
   (score_color_tiers 50).2.2.2.1 (by decide) 10 (by decide)⟩

/-! ## Status of a validation result -/

/-- C3. For every validation result with `is_phishing = true`, whatever else
it holds, the status is danger: text 'Phishing Detected', colour `#ef4444`,
the skull icon and section class 'result-danger'. With `is_phishing = false`
the status is success ('Valid Email', `#10b981`, 'result-success') when
`valid = true`, and warning ('Validation Warning', `#f59e0b`,
'result-warning') when `valid` is false or absent. -/
theorem status_precedence (result : JSValue) :
    (result.getProp "is_phishing" = .ok (.bool true) →
      EmailValidator.getStatusText result = .ok "Phishing Detected"
      ∧ EmailValidator.getStatusColor result = .ok "#ef4444"
      ∧ EmailValidator.getStatusIcon result = .ok "fas fa-skull-crossbones"
      ∧ EmailValidator.resultSectionClass result = .ok "result-danger")
    ∧ (result.getProp "is_phishing" = .ok (.bool false) →
        result.getProp "valid" = .ok (.bool true) →
      EmailValidator.getStatusText result = .ok "Valid Email"
      ∧ EmailValidator.getStatusColor result = .ok "#10b981"
      ∧ EmailValidator.getStatusIcon result = .ok "fas fa-check-circle"
      ∧ EmailValidator.resultSectionClass result = .ok "result-success")
    ∧ (∀ valid : JSValue, result.getProp "is_phishing" = .ok (.bool false) →
        result.getProp "valid" = .ok valid → valid.truthy = false →
      EmailValidator.getStatusText result = .ok "Validation Warning"
      ∧ EmailValidator.getStatusColor result = .ok "#f59e0b"
      ∧ EmailValidator.getStatusIcon result = .ok "fas fa-exclamation-triangle"
      ∧ EmailValidator.resultSectionClass result = .ok "result-warning") := by
  refine ⟨?_, ?_, ?_⟩
  · intro hp
    simp only [EmailValidator.getStatusText, EmailValidator.getStatusColor,
      EmailValidator.getStatusIcon, EmailValidator.resultSectionClass, hp]
    exact ⟨rfl, rfl, rfl, rfl⟩
  · intro hp hv
    simp only [EmailValidator.getStatusText, EmailValidator.getStatusColor,
      EmailValidator.getStatusIcon, EmailValidator.resultSectionClass, hp, hv]
    exact ⟨rfl, rfl, rfl, rfl⟩
  · intro valid hp hv hfalsy
    simp only [EmailValidator.getStatusText, EmailValidator.getStatusColor,
      EmailValidator.getStatusIcon, EmailValidator.resultSectionClass, hp, hv]
    have hfalse : (JSValue.bool false).truthy = false := rfl
    simp [bind, Except.bind, hfalsy, hfalse, pure, Except.pure]

/-- Witness for C3: a phishing result that is also valid with score 95, a
valid result, and an invalid one. -/
theorem status_precedence_witness :
    EmailValidator.getStatusText (.object [("valid", .bool true),
        ("is_phishing", .bool true), ("score", .number 95)]) = .ok "Phishing Detected"
    ∧ EmailValidator.resultSectionClass (.object [("valid", .bool true),
        ("is_phishing", .bool true), ("score", .number 95)]) = .ok "result-danger"
    ∧ EmailValidator.getStatusText (.object [("valid", .bool true),
        ("is_phishing", .bool false), ("score", .number 85)]) = .ok "Valid Email"
    ∧ EmailValidator.getStatusText (.object [("valid", .bool false),
        ("is_phishing", .bool false), ("score", .number 85)]) = .ok "Validation Warning" :=
  ⟨((status_precedence (.object [("valid", .bool true),
        ("is_phishing", .bool true), ("score", .number 95)])).1 rfl).1,
   ((status_precedence (.object [("valid", .bool true),
        ("is_phishing", .bool true), ("score", .number 95)])).1 rfl).2.2.2,
   ((status_precedence (.object [("valid", .bool true),
        ("is_phishing", .bool false), ("score", .number 85)])).2.1 rfl rfl).1,
   ((status_precedence (.object [("valid", .bool false),
        ("is_phishing", .bool false), ("score", .number 85)])).2.2
          (.bool false) rfl rfl rfl).1⟩

/-! ## Failure of the request -/

/-- The state `validateEmail` leaves when the request fails: the default
result, no similar emails, not in flight, the input untouched. -/
theorem validateEmail_failed (s : EmailValidator.State) (settle : Settlement)
    (hemail : s.email ≠ "")
    (hfail : settle = .rejected ∨ settle = .undecodable
      ∨ ∃ data e, settle = .decoded data ∧ data.getProp "similar_emails" = .error e) :
    (EmailValidator.validateEmail s settle).completion = .ok ()
    ∧ s.run (EmailValidator.validateEmail s settle).trace =
        { email := s.email
          result := .object [
            ("valid", .bool false),
            ("message", .string "Error validating email"),
            ("score", .number 0),
            ("is_phishing", .bool false)]
          loading := false
          similarEmails := .array [] } := by
  unfold EmailValidator.validateEmail
  rw [if_neg hemail]
  rcases hfail with rfl | rfl | ⟨data, e, rfl, hd⟩
  · exact ⟨rfl, rfl⟩
  · exact ⟨rfl, rfl⟩
  · cases data with
    | undefined => exact ⟨rfl, rfl⟩
    | null => exact ⟨rfl, rfl⟩
    | bool b => simp [JSValue.getProp] at hd
    | number n => simp [JSValue.getProp] at hd
    | string s => simp [JSValue.getProp] at hd
    | array items => simp [JSValue.getProp] at hd
    | object fields => simp [JSValue.getProp] at hd

/-- The state `detectPhishing` leaves when the request fails: the default
result, not in flight, the input untouched. -/
theorem detectPhishing_failed (s : PhishingDetector.State) (settle : Settlement)
    (hurl : s.url ≠ "") (hfail : settle = .rejected ∨ settle = .undecodable) :
    (PhishingDetector.detectPhishing s settle).completion = .ok ()
    ∧ s.run (PhishingDetector.detectPhishing s settle).trace =
        { url := s.url
          result := .object [
            ("is_phishing", .bool false),
            ("risk_score", .number 0),
            ("warnings", .array [.string "Error analyzing URL"]),
            ("domain", .string "unknown")]
          loading := false } := by
  unfold PhishingDetector.detectPhishing
  rw [if_neg hurl]
  rcases hfail with rfl | rfl
  · exact ⟨rfl, rfl⟩
  · exact ⟨rfl, rfl⟩

/-- C4. For every non-empty email and every prior state of the view, when
the validate-email call fails (the fetch rejects, the body cannot be decoded,
or reading `similar_emails` of the decoded value throws), `validateEmail`
completes without raising and leaves
`result = {valid: false, message: 'Error validating email', score: 0,
is_phishing: false}` and an empty similar-emails list. -/
theorem validateEmail_failure_default (s : EmailValidator.State) (settle : Settlement)
    (hemail : s.email ≠ "")
    (hfail : settle = .rejected ∨ settle = .undecodable
      ∨ ∃ data e, settle = .decoded data ∧ data.getProp "similar_emails" = .error e) :
    (EmailValidator.validateEmail s settle).completion = .ok ()
    ∧ (s.run (EmailValidator.validateEmail s settle).trace).result =
        .object [
          ("valid", .bool false),
          ("message", .string "Error validating email"),
          ("score", .number 0),
          ("is_phishing", .bool false)]
    ∧ (s.run (EmailValidator.validateEmail s settle).trace).similarEmails = .array [] := by
  obtain ⟨hc, hrun⟩ := validateEmail_failed s settle hemail hfail
  rw [hrun]
  exact ⟨hc, rfl, rfl⟩

/-- Witness for C4: a view that shows an earlier result, and a body that
decodes to `null`. -/
theorem validateEmail_failure_default_witness :
    (EmailValidator.validateEmail
        { email := "user@gmail.com", result := .object [("valid", .bool true)],
          loading := false, similarEmails := .array [.string "x"] }
        (.decoded .null)).completion = .ok ()
    ∧ (EmailValidator.State.run
        { email := "user@gmail.com", result := .object [("valid", .bool true)],
          loading := false, similarEmails := .array [.string "x"] }
        (EmailValidator.validateEmail
          { email := "user@gmail.com", result := .object [("valid", .bool true)],
            loading := false, similarEmails := .array [.string "x"] }
          (.decoded .null)).trace).result =
        .object [
          ("valid", .bool false),
          ("message", .string "Error validating email"),
          ("score", .number 0),
          ("is_phishing", .bool false)]
    ∧ (EmailValidator.State.run
        { email := "user@gmail.com", result := .object [("valid", .bool true)],
          loading := false, similarEmails := .array [.string "x"] }
        (EmailValidator.validateEmail
          { email := "user@gmail.com", result := .object [("valid", .bool true)],
            loading := false, similarEmails := .array [.string "x"] }
          (.decoded .null)).trace).similarEmails = .array [] :=
  validateEmail_failure_default
    { email := "user@gmail.com", result := .object [("valid", .bool true)],
      loading := false, similarEmails := .array [.string "x"] }
    (.decoded .null) (by decide)
    (Or.inr (Or.inr ⟨.null, .typeError, rfl, rfl⟩))

/-- C5. For every non-empty URL and every prior state of the view, when the
detect-phishing call fails (the fetch rejects or the body cannot be decoded),
`detectPhishing` completes without raising and leaves
`result = {is_phishing: false, risk_score: 0, warnings: ['Error analyzing URL'],
domain: 'unknown'}`. -/
theorem detectPhishing_failure_default (s : PhishingDetector.State) (settle : Settlement)
    (hurl : s.url ≠ "") (hfail : settle = .rejected ∨ settle = .undecodable) :
    (PhishingDetector.detectPhishing s settle).completion = .ok ()
    ∧ (s.run (PhishingDetector.detectPhishing s settle).trace).result =
        .object [
          ("is_phishing", .bool false),
          ("risk_score", .number 0),
          ("warnings", .array [.string "Error analyzing URL"]),
          ("domain", .string "unknown")] := by
  obtain ⟨hc, hrun⟩ := detectPhishing_failed s settle hurl hfail
  rw [hrun]
  exact ⟨hc, rfl⟩

/-- Witness for C5: a fresh view with a URL typed in, and a rejected fetch. -/
theorem detectPhishing_failure_default_witness :
    (PhishingDetector.detectPhishing { url := "http://example.com" } .rejected).completion
        = .ok ()
    ∧ (PhishingDetector.State.run { url := "http://example.com" }
        (PhishingDetector.detectPhishing { url := "http://example.com" } .rejected).trace).result =
        .object [
          ("is_phishing", .bool false),
          ("risk_score", .number 0),
          ("warnings", .array [.string "Error analyzing URL"]),
          ("domain", .string "unknown")] :=
  detectPhishing_failure_default { url := "http://example.com" } .rejected
    (by decide) (Or.inl rfl)

/-- C6. For every non-empty email (passed as argument or taken from the
input) and every prior analysis value, when the security-score call fails,
`analyzeSecurity` completes without raising, calls `setAnalysis` with no
value at all and leaves the analysis slot, and the email input, as they were;
when the slot was empty the view still shows the input form, not in flight. -/
theorem analyzeSecurity_failure_keeps_analysis (s : SecurityScore.State)
    (arg : Option String) (settle : Settlement)
    (hemail : arg.getD s.email ≠ "")
    (hfail : settle = .rejected ∨ settle = .undecodable) :
    (SecurityScore.analyzeSecurity s arg settle).completion = .ok ()
    ∧ (∀ v : JSValue, Effect.setAnalysis v ∉ (SecurityScore.analyzeSecurity s arg settle).trace)
    ∧ (s.run (SecurityScore.analyzeSecurity s arg settle).trace).analysis = s.analysis
    ∧ (s.run (SecurityScore.analyzeSecurity s arg settle).trace).email = s.email
    ∧ (s.analysis = .null →
        SecurityScore.showsInputForm (s.run (SecurityScore.analyzeSecurity s arg settle).trace)
          = true
        ∧ SecurityScore.showsAnalysis (s.run (SecurityScore.analyzeSecurity s arg settle).trace)
          = false
        ∧ (s.run (SecurityScore.analyzeSecurity s arg settle).trace).loading = false) := by
  unfold SecurityScore.analyzeSecurity
  simp only [if_neg hemail]
  rcases hfail with rfl | rfl
  · refine ⟨rfl, ?_, rfl, rfl, ?_⟩
    · intro v hv
      simp [JS.emit, JS.tryCatch, fetch, bind, JS.bind] at hv
    · intro hnull
      simp only [SecurityScore.showsInputForm, SecurityScore.showsAnalysis]
      refine ⟨?_, ?_, rfl⟩
      · show (!s.analysis.truthy) = true
        rw [hnull]; rfl
      · show s.analysis.truthy = false
        rw [hnull]; rfl
  · refine ⟨rfl, ?_, rfl, rfl, ?_⟩
    · intro v hv
      simp [JS.emit, JS.tryCatch, fetch, bind, JS.bind, Settlement.json, JS.lift] at hv
    · intro hnull
      simp only [SecurityScore.showsInputForm, SecurityScore.showsAnalysis]
      refine ⟨?_, ?_, rfl⟩
      · show (!s.analysis.truthy) = true
        rw [hnull]; rfl
      · show s.analysis.truthy = false
        rw [hnull]; rfl

/-- Witness for C6: a view that holds a previous analysis, the button
pressed with a new email typed in, and a rejected fetch. -/
theorem analyzeSecurity_failure_keeps_analysis_witness :
    (SecurityScore.State.run
        { email := "a@b.com", analysis := .object [("score", .number 85)], loading := false }
        (SecurityScore.analyzeSecurity
          { email := "a@b.com", analysis := .object [("score", .number 85)], loading := false }
          none .rejected).trace).analysis = .object [("score", .number 85)] :=
  (analyzeSecurity_failure_keeps_analysis
    { email := "a@b.com", analysis := .object [("score", .number 85)], loading := false }
    none .rejected (by decide) (Or.inl rfl)).2.2.1

/-! ## The in-flight flag -/

/-- C7. For each of `validateEmail`, `detectPhishing` and `analyzeSecurity`,
for every non-empty input and every settlement of the request (rejected,
undecodable, or decoded to any value), the operation first calls
`setLoading(true)`, issues its request next, completes without raising, and
the in-flight flag is false in the state it leaves. -/
theorem loading_set_then_cleared (ev : EmailValidator.State) (pd : PhishingDetector.State)
    (ss : SecurityScore.State) (arg : Option String) (settle : Settlement) :
    (ev.email ≠ "" →
      (∃ rest, (EmailValidator.validateEmail ev settle).trace =
          .setLoading true :: .fetch (.validateEmail ev.email) :: rest)
      ∧ (EmailValidator.validateEmail ev settle).completion = .ok ()
      ∧ (ev.run (EmailValidator.validateEmail ev settle).trace).loading = false)
    ∧ (pd.url ≠ "" →
      (∃ rest, (PhishingDetector.detectPhishing pd settle).trace =
          .setLoading true :: .fetch (.detectPhishing pd.url) :: rest)
      ∧ (PhishingDetector.detectPhishing pd settle).completion = .ok ()
      ∧ (pd.run (PhishingDetector.detectPhishing pd settle).trace).loading = false)
    ∧ (arg.getD ss.email ≠ "" →
      (∃ rest, (SecurityScore.analyzeSecurity ss arg settle).trace =
          .setLoading true :: .fetch (.securityScore (arg.getD ss.email)) :: rest)
      ∧ (SecurityScore.analyzeSecurity ss arg settle).completion = .ok ()
      ∧ (ss.run (SecurityScore.analyzeSecurity ss arg settle).trace).loading = false) := by
  refine ⟨?_, ?_, ?_⟩
  · intro h
    unfold EmailValidator.validateEmail
    rw [if_neg h]
    cases settle with
    | rejected => exact ⟨⟨_, rfl⟩, rfl, rfl⟩
    | undecodable => exact ⟨⟨_, rfl⟩, rfl, rfl⟩
    | decoded data => cases data <;> exact ⟨⟨_, rfl⟩, rfl, rfl⟩
  · intro h
    unfold PhishingDetector.detectPhishing
    rw [if_neg h]
    cases settle <;> exact ⟨⟨_, rfl⟩, rfl, rfl⟩
  · intro h
    unfold SecurityScore.analyzeSecurity
    simp only [if_neg h]
    cases settle <;> exact ⟨⟨_, rfl⟩, rfl, rfl⟩

/-- Witness for C7: three views already marked in flight, and a body that
decodes to `null`. -/
theorem loading_set_then_cleared_witness :
    (EmailValidator.State.run { email := "a@b.com", loading := true }
        (EmailValidator.validateEmail { email := "a@b.com", loading := true }
          (.decoded .null)).trace).loading = false
    ∧ (PhishingDetector.State.run { url := "http://x.test", loading := true }
        (PhishingDetector.detectPhishing { url := "http://x.test", loading := true }
          (.decoded .null)).trace).loading = false
    ∧ (SecurityScore.State.run { email := "", loading := true }
        (SecurityScore.analyzeSecurity { email := "", loading := true }
          (some "a@b.com") (.decoded .null)).trace).loading = false :=
  ⟨((loading_set_then_cleared { email := "a@b.com", loading := true }
      { url := "http://x.test", loading := true } { email := "", loading := true }
      (some "a@b.com") (.decoded .null)).1 (by decide)).2.2,
   ((loading_set_then_cleared { email := "a@b.com", loading := true }
      { url := "http://x.test", loading := true } { email := "", loading := true }
      (some "a@b.com") (.decoded .null)).2.1 (by decide)).2.2,
   ((loading_set_then_cleared { email := "a@b.com", loading := true }
      { url := "http://x.test", loading := true } { email := "", loading := true }
      (some "a@b.com") (.decoded .null)).2.2 (by decide)).2.2⟩

/-! ## How the default results are displayed -/

/-- C10, as stated, fails for the detect-phishing default: after a rejected
fetch for `http://example.com` the result section is shown with the class
'result-safe', the green `#10b981`, the title 'Low Risk' and the check-circle
icon. -/
theorem detectPhishing_default_shown_safe :
    PhishingDetector.showsResult
        (PhishingDetector.State.run { url := "http://example.com" }
          (PhishingDetector.detectPhishing { url := "http://example.com" } .rejected).trace)
      = true
    ∧ PhishingDetector.resultSectionClass
        (PhishingDetector.State.run { url := "http://example.com" }
          (PhishingDetector.detectPhishing { url := "http://example.com" } .rejected).trace).result
      = .ok "result-safe"
    ∧ PhishingDetector.resultColor
        (PhishingDetector.State.run { url := "http://example.com" }
          (PhishingDetector.detectPhishing { url := "http://example.com" } .rejected).trace).result
      = .ok (some "#10b981")
    ∧ PhishingDetector.resultTitle
        (PhishingDetector.State.run { url := "http://example.com" }
          (PhishingDetector.detectPhishing { url := "http://example.com" } .rejected).trace).result
      = .ok (some "Low Risk")
    ∧ PhishingDetector.resultIcon
        (PhishingDetector.State.run { url := "http://example.com" }
          (PhishingDetector.detectPhishing { url := "http://example.com" } .rejected).trace).result
      = .ok (some "fas fa-check-circle") :=
  ⟨rfl, rfl, rfl, rfl, rfl⟩

/-- C10, amended. When either detector call fails, the substituted default
result is displayed. The validate-email default is shown as
'Validation Warning' in the amber `#f59e0b`, with section class
'result-warning' and message 'Error validating email'. The detect-phishing
default is shown with section class 'result-safe', the green `#10b981`, the
title 'Low Risk' and the check-circle icon, together with a warnings section
whose only item is 'Error analyzing URL'. -/
theorem failure_defaults_display (ev : EmailValidator.State) (pd : PhishingDetector.State)
    (evSettle pdSettle : Settlement)
    (hemail : ev.email ≠ "")
    (hevFail : evSettle = .rejected ∨ evSettle = .undecodable
      ∨ ∃ data e, evSettle = .decoded data ∧ data.getProp "similar_emails" = .error e)
    (hurl : pd.url ≠ "")
    (hpdFail : pdSettle = .rejected ∨ pdSettle = .undecodable) :
    (EmailValidator.showsResult (ev.run (EmailValidator.validateEmail ev evSettle).trace) = true
      ∧ EmailValidator.getStatusText
          (ev.run (EmailValidator.validateEmail ev evSettle).trace).result
        = .ok "Validation Warning"
      ∧ EmailValidator.getStatusColor
          (ev.run (EmailValidator.validateEmail ev evSettle).trace).result
        = .ok "#f59e0b"
      ∧ EmailValidator.resultSectionClass
          (ev.run (EmailValidator.validateEmail ev evSettle).trace).result
        = .ok "result-warning"
      ∧ EmailValidator.resultMessage
          (ev.run (EmailValidator.validateEmail ev evSettle).trace).result
        = .ok (.string "Error validating email"))
    ∧ (PhishingDetector.showsResult
          (pd.run (PhishingDetector.detectPhishing pd pdSettle).trace) = true
      ∧ PhishingDetector.resultSectionClass
          (pd.run (PhishingDetector.detectPhishing pd pdSettle).trace).result
        = .ok "result-safe"
      ∧ PhishingDetector.resultColor
          (pd.run (PhishingDetector.detectPhishing pd pdSettle).trace).result
        = .ok (some "#10b981")
      ∧ PhishingDetector.resultTitle
          (pd.run (PhishingDetector.detectPhishing pd pdSettle).trace).result
        = .ok (some "Low Risk")
      ∧ PhishingDetector.resultIcon
          (pd.run (PhishingDetector.detectPhishing pd pdSettle).trace).result
        = .ok (some "fas fa-check-circle")
      ∧ PhishingDetector.warningItems
          (pd.run (PhishingDetector.detectPhishing pd pdSettle).trace).result
        = .ok (some [.string "Error analyzing URL"])) := by
  rw [(validateEmail_failed ev evSettle hemail hevFail).2,
    (detectPhishing_failed pd pdSettle hurl hpdFail).2]
  exact ⟨⟨rfl, rfl, rfl, rfl, rfl⟩, ⟨rfl, rfl, rfl, rfl, rfl, rfl⟩⟩

/-- Witness for the amended C10: an undecodable body for the validator and a
rejected fetch for the detector. -/
theorem failure_defaults_display_witness :
    EmailValidator.getStatusText
        (EmailValidator.State.run { email := "a@b.com" }
          (EmailValidator.validateEmail { email := "a@b.com" } .undecodable).trace).result
      = .ok "Validation Warning"
    ∧ PhishingDetector.resultTitle
        (PhishingDetector.State.run { url := "http://example.com" }
          (PhishingDetector.detectPhishing { url := "http://example.com" } .rejected).trace).result
      = .ok (some "Low Risk") :=
  ⟨(failure_defaults_display { email := "a@b.com" } { url := "http://example.com" }
      .undecodable .rejected (by decide) (Or.inr (Or.inl rfl)) (by decide) (Or.inl rfl)).1.2.1,
   (failure_defaults_display { email := "a@b.com" } { url := "http://example.com" }
      .undecodable .rejected (by decide) (Or.inr (Or.inl rfl)) (by decide) (Or.inl rfl)).2.2.2.2.1⟩

/-! ## From the validator to the security view -/

/-- C11, as stated, fails: with the valid, non-phishing result for
`user@gmail.com` shown and no `email` parameter in the page URL,
`navigateToSecurity` makes 'security' the current page, and the security view
is entered with the empty email input, not with `user@gmail.com`. -/
theorem navigateToSecurity_drops_email :
    (App.State.run
        { currentPage := "validator"
          mounted := .validator
            { email := "user@gmail.com"
              result := .object [("valid", .bool true), ("is_phishing", .bool false),
                ("score", .number 85)] } }
        none .rejected
        (EmailValidator.navigateToSecurity
          { email := "user@gmail.com"
            result := .object [("valid", .bool true), ("is_phishing", .bool false),
              ("score", .number 85)] }).trace).currentPage = "security"
    ∧ (App.State.run
        { currentPage := "validator"
          mounted := .validator
            { email := "user@gmail.com"
              result := .object [("valid", .bool true), ("is_phishing", .bool false),
                ("score", .number 85)] } }
        none .rejected
        (EmailValidator.navigateToSecurity
          { email := "user@gmail.com"
            result := .object [("valid", .bool true), ("is_phishing", .bool false),
              ("score", .number 85)] }).trace).mounted.securityEmail? = some ""
    ∧ (App.State.run
        { currentPage := "validator"
          mounted := .validator
            { email := "user@gmail.com"
              result := .object [("valid", .bool true), ("is_phishing", .bool false),
                ("score", .number 85)] } }
        none .rejected
        (EmailValidator.navigateToSecurity
          { email := "user@gmail.com"
            result := .object [("valid", .bool true), ("is_phishing", .bool false),
              ("score", .number 85)] }).trace).mounted.securityEmail?
        ≠ some "user@gmail.com" := by
  refine ⟨rfl, rfl, ?_⟩
  intro h
  have h' : (some "" : Option String) = some "user@gmail.com" := h
  exact absurd h' (by decide)

/-- C11, amended. For every state of the email validator whose result has
`is_phishing = false` (so for every valid, non-phishing result),
`navigateToSecurity` calls `onNavigate('security')` and nothing else:
'security' becomes the current page and a `SecurityScore` is mounted whose
state does not depend on the validated email; without an `email` parameter in
the page URL it is the initial state, with the empty email input. When the
result is absent or has `is_phishing = true`, nothing is emitted and the
state of `App` is unchanged. -/
theorem navigateToSecurity_enters_security (s : EmailValidator.State) (app : App.State)
    (emailParam : Option String) (settle : Settlement) :
    (s.result.getProp "is_phishing" = .ok (.bool false) → app.mounted = .validator s →
      (EmailValidator.navigateToSecurity s).trace = [.navigate "security"]
      ∧ (app.run emailParam settle (EmailValidator.navigateToSecurity s).trace).currentPage
          = "security"
      ∧ (app.run emailParam settle (EmailValidator.navigateToSecurity s).trace).mounted
          = .security (SecurityScore.mount emailParam settle)
      ∧ (emailParam = none →
          (app.run emailParam settle (EmailValidator.navigateToSecurity s).trace).mounted
            = .security { email := "", analysis := .null, loading := false }))
    ∧ (s.result.truthy = false →
      (EmailValidator.navigateToSecurity s).trace = []
      ∧ app.run emailParam settle (EmailValidator.navigateToSecurity s).trace = app)
    ∧ (s.result.getProp "is_phishing" = .ok (.bool true) →
      (EmailValidator.navigateToSecurity s).trace = []
      ∧ app.run emailParam settle (EmailValidator.navigateToSecurity s).trace = app) := by
  refine ⟨?_, ?_, ?_⟩
  · intro hp hm
    have htruthy : s.result.truthy = true := by
      cases hr : s.result <;> rw [hr] at hp <;> simp [JSValue.getProp] at hp
      rfl
    have htrace : (EmailValidator.navigateToSecurity s).trace = [.navigate "security"] := by
      unfold EmailValidator.navigateToSecurity
      rw [if_pos htruthy, hp]
      rfl
    rw [htrace]
    refine ⟨rfl, rfl, ?_, ?_⟩
    · simp [App.State.run, App.setCurrentPage, hm, App.renderPage, App.Mounted.component,
        App.mount]
    · intro hnone
      subst hnone
      simp [App.State.run, App.setCurrentPage, hm, App.renderPage, App.Mounted.component,
        App.mount]
      rfl
  · intro hfalsy
    have htrace : (EmailValidator.navigateToSecurity s).trace = [] := by
      unfold EmailValidator.navigateToSecurity
      simp [hfalsy]
      rfl
    rw [htrace]
    exact ⟨rfl, rfl⟩
  · intro hp
    have htruthy : s.result.truthy = true := by
      cases hr : s.result <;> rw [hr] at hp <;> simp [JSValue.getProp] at hp
      rfl
    have htrace : (EmailValidator.navigateToSecurity s).trace = [] := by
      unfold EmailValidator.navigateToSecurity
      rw [if_pos htruthy, hp]
      rfl
    rw [htrace]
    exact ⟨rfl, rfl⟩

/-- Witness for the amended C11: the validator showing a valid result for
`user@gmail.com`, and a page URL whose `email` parameter is `x@y.org`. -/
theorem navigateToSecurity_enters_security_witness :
    (App.State.run
        { currentPage := "validator"
          mounted := .validator
            { email := "user@gmail.com"
              result := .object [("valid", .bool true), ("is_phishing", .bool false)] } }
        (some "x@y.org") .rejected
        (EmailValidator.navigateToSecurity
          { email := "user@gmail.com"
            result := .object [("valid", .bool true), ("is_phishing", .bool false)] }).trace
      ).currentPage = "security"
    ∧ App.State.run { currentPage := "validator", mounted := .validator { email := "a@b.com" } }
        none .rejected
        (EmailValidator.navigateToSecurity { email := "a@b.com" }).trace
      = { currentPage := "validator", mounted := .validator { email := "a@b.com" } } :=
  ⟨((navigateToSecurity_enters_security
      { email := "user@gmail.com"
        result := .object [("valid", .bool true), ("is_phishing", .bool false)] }
      { currentPage := "validator"
        mounted := .validator
          { email := "user@gmail.com"
            result := .object [("valid", .bool true), ("is_phishing", .bool false)] } }
      (some "x@y.org") .rejected).1 rfl rfl).2.1,
   ((navigateToSecurity_enters_security { email := "a@b.com" }
      { currentPage := "validator", mounted := .validator { email := "a@b.com" } }
      none .rejected).2.1 rfl).2⟩

/-! ## Score badge and detailed-analysis button -/

/-- C12. For every validation result with `is_phishing = true` the email
validator renders neither the score display nor the detailed-analysis button;
for every result with `valid = true` and `is_phishing = false` it renders
both, the display labelled `getScoreLevel(score)` for its integer score; a
result with `valid = false` and `is_phishing = false` gets the display but no
button. -/
theorem badge_and_button (result : JSValue) :
    (result.getProp "is_phishing" = .ok (.bool true) →
      EmailValidator.showsScoreDisplay result = .ok false
      ∧ EmailValidator.showsActionButtons result = .ok false)
    ∧ (∀ score : Int, result.getProp "is_phishing" = .ok (.bool false) →
        result.getProp "valid" = .ok (.bool true) →
        result.getProp "score" = .ok (.number score) →
      EmailValidator.showsScoreDisplay result = .ok true
      ∧ EmailValidator.scoreDisplayLevel result = .ok (some (EmailValidator.getScoreLevel score))
      ∧ EmailValidator.showsActionButtons result = .ok true)
    ∧ (∀ score : Int, result.getProp "is_phishing" = .ok (.bool false) →
        result.getProp "valid" = .ok (.bool false) →
        result.getProp "score" = .ok (.number score) →
      EmailValidator.showsScoreDisplay result = .ok true
      ∧ EmailValidator.scoreDisplayLevel result = .ok (some (EmailValidator.getScoreLevel score))
      ∧ EmailValidator.showsActionButtons result = .ok false) := by
  refine ⟨?_, ?_, ?_⟩
  · intro hp
    simp only [EmailValidator.showsScoreDisplay, EmailValidator.showsActionButtons, hp]
    exact ⟨rfl, rfl⟩
  · intro score hp hv hs
    simp only [EmailValidator.showsScoreDisplay, EmailValidator.showsActionButtons,
      EmailValidator.scoreDisplayLevel, hp, hv, hs]
    exact ⟨rfl, rfl, rfl⟩
  · intro score hp hv hs
    simp only [EmailValidator.showsScoreDisplay, EmailValidator.showsActionButtons,
      EmailValidator.scoreDisplayLevel, hp, hv, hs]
    exact ⟨rfl, rfl, rfl⟩

/-- Witness for C12: the phishing result with score 10, the valid result with
score 85 (labelled 'Excellent'), and an invalid result with score 45. -/
theorem badge_and_button_witness :
    (EmailValidator.showsScoreDisplay (.object [("valid", .bool true),
        ("is_phishing", .bool true), ("score", .number 10)]) = .ok false
      ∧ EmailValidator.showsActionButtons (.object [("valid", .bool true),
        ("is_phishing", .bool true), ("score", .number 10)]) = .ok false)
    ∧ (EmailValidator.showsScoreDisplay (.object [("valid", .bool true),
        ("is_phishing", .bool false), ("score", .number 85)]) = .ok true
      ∧ EmailValidator.scoreDisplayLevel (.object [("valid", .bool true),
        ("is_phishing", .bool false), ("score", .number 85)])
          = .ok (some (EmailValidator.getScoreLevel 85))
      ∧ EmailValidator.showsActionButtons (.object [("valid", .bool true),
        ("is_phishing", .bool false), ("score", .number 85)]) = .ok true)
    ∧ (EmailValidator.showsScoreDisplay (.object [("valid", .bool false),
        ("is_phishing", .bool false), ("score", .number 45)]) = .ok true
      ∧ EmailValidator.scoreDisplayLevel (.object [("valid", .bool false),
        ("is_phishing", .bool false), ("score", .number 45)])
          = .ok (some (EmailValidator.getScoreLevel 45))
      ∧ EmailValidator.showsActionButtons (.object [("valid", .bool false),
        ("is_phishing", .bool false), ("score", .number 45)]) = .ok false) :=
  ⟨(badge_and_button (.object [("valid", .bool true),
        ("is_phishing", .bool true), ("score", .number 10)])).1 rfl,
   (badge_and_button (.object [("valid", .bool true),
        ("is_phishing", .bool false), ("score", .number 85)])).2.1 85 rfl rfl rfl,
   (badge_and_button (.object [("valid", .bool false),
        ("is_phishing", .bool false), ("score", .number 45)])).2.2 45 rfl rfl rfl⟩

/-! ## Deep link into the security view -/

/-- Renders after the mount add nothing to what a `SecurityScore` emits. -/
theorem lifecycleTrace_eq_mount (emailParam : Option String) (settle : Settlement)
    (rerenders : Nat) :
    SecurityScore.lifecycleTrace emailParam settle rerenders
      = (SecurityScore.mountEffect {} emailParam settle).trace := by
  induction rerenders with
  | zero => rfl
  | succ n ih =>
    rw [SecurityScore.lifecycleTrace, ih]
    simp only [SecurityScore.effectsAfterRender, Nat.succ_ne_zero, if_false]
    exact List.append_nil _

/-- C13. Mounting the security-score view with the query parameter
`email=v`, `v` non-empty, sets the email input to `v` and issues exactly one
request, the security-score request for `v`, however many renders follow and
however the request settles; mounting it without the parameter emits nothing:
no request, and the email input and the analysis slot stay empty. -/
theorem deep_link_fetches_once (settle : Settlement) (rerenders : Nat) :
    (∀ v : String, v ≠ "" →
      requests (SecurityScore.lifecycleTrace (some v) settle rerenders) = [.securityScore v]
      ∧ (SecurityScore.State.run {}
          (SecurityScore.lifecycleTrace (some v) settle rerenders)).email = v)
    ∧ (requests (SecurityScore.lifecycleTrace none settle rerenders) = []
      ∧ SecurityScore.State.run {} (SecurityScore.lifecycleTrace none settle rerenders)
          = { email := "", analysis := .null, loading := false }) := by
  refine ⟨?_, ?_⟩
  · intro v hv
    rw [lifecycleTrace_eq_mount]
    have hget : (some v : Option String).getD (({} : SecurityScore.State).email) ≠ "" := hv
    simp only [SecurityScore.mountEffect, if_neg hv, SecurityScore.analyzeSecurity, if_neg hget]
    cases settle <;> exact ⟨rfl, rfl⟩
  · rw [lifecycleTrace_eq_mount]
    exact ⟨rfl, rfl⟩

/-- Witness for C13: the deep link `?email=a@b.com`, a body that decodes to an
analysis, and three further renders. -/
theorem deep_link_fetches_once_witness :
    requests (SecurityScore.lifecycleTrace (some "a@b.com")
        (.decoded (.object [("score", .number 85)])) 3) = [.securityScore "a@b.com"]
    ∧ (SecurityScore.State.run {}
        (SecurityScore.lifecycleTrace (some "a@b.com")
          (.decoded (.object [("score", .number 85)])) 3)).email = "a@b.com" :=
  (deep_link_fetches_once (.decoded (.object [("score", .number 85)])) 3).1
    "a@b.com" (by decide)

/-! ## Presence of the warnings of a stored result -/

/-- C14, at its failing input: when the body decodes to
`{is_phishing: false, risk_score: 0, domain: 'example.com'}`, `detectPhishing`
completes, the result slot holds that value as it came and the section is
shown, `result.warnings` is `undefined`, and the read of
`result.warnings.length` in the warnings section throws a `TypeError`. -/
theorem detectPhishing_stores_result_without_warnings :
    (PhishingDetector.detectPhishing { url := "http://example.com" }
        (.decoded (.object [("is_phishing", .bool false), ("risk_score", .number 0),
          ("domain", .string "example.com")]))).completion = .ok ()
    ∧ (PhishingDetector.State.run { url := "http://example.com" }
        (PhishingDetector.detectPhishing { url := "http://example.com" }
          (.decoded (.object [("is_phishing", .bool false), ("risk_score", .number 0),
            ("domain", .string "example.com")]))).trace).result
      = .object [("is_phishing", .bool false), ("risk_score", .number 0),
          ("domain", .string "example.com")]
    ∧ PhishingDetector.showsResult
        (PhishingDetector.State.run { url := "http://example.com" }
          (PhishingDetector.detectPhishing { url := "http://example.com" }
            (.decoded (.object [("is_phishing", .bool false), ("risk_score", .number 0),
              ("domain", .string "example.com")]))).trace) = true
    ∧ (PhishingDetector.State.run { url := "http://example.com" }
        (PhishingDetector.detectPhishing { url := "http://example.com" }
          (.decoded (.object [("is_phishing", .bool false), ("risk_score", .number 0),
            ("domain", .string "example.com")]))).trace).result.getProp "warnings"
      = .ok .undefined
    ∧ PhishingDetector.warningItems
        (PhishingDetector.State.run { url := "http://example.com" }
          (PhishingDetector.detectPhishing { url := "http://example.com" }
            (.decoded (.object [("is_phishing", .bool false), ("risk_score", .number 0),
              ("domain", .string "example.com")]))).trace).result
      = .error .typeError :=
  ⟨rfl, rfl, rfl, rfl, rfl⟩

/-- On the success path `detectPhishing` stores the decoded value unchanged,
whatever it is. -/
theorem detectPhishing_stores_response (s : PhishingDetector.State) (data : JSValue)
    (hurl : s.url ≠ "") :
    (s.run (PhishingDetector.detectPhishing s (.decoded data)).trace).result = data := by
  unfold PhishingDetector.detectPhishing
  rw [if_neg hurl]
  rfl

/-! ## Navigation between the views -/

/-- After `onNavigate('home')` the mounted component is `Home`. -/
theorem setCurrentPage_home_mounted (app : App.State) (emailParam : Option String)
    (settle : Settlement) :
    (App.setCurrentPage app emailParam settle "home").mounted = .home := by
  unfold App.setCurrentPage
  cases hm : app.mounted <;> rfl

/-- C15, as stated, fails for the security view: with `email=a@b.com` in the
page URL, navigating from 'security' to 'home' and back to 'security' yields
a security view whose email input is `a@b.com`, not the empty input, and the
security-score request for `a@b.com` is issued on that entry. -/
theorem security_not_reset_under_deep_link :
    (App.setCurrentPage
        (App.setCurrentPage
          { currentPage := "security"
            mounted := .security { email := "a@b.com", analysis := .object [("score", .number 85)] } }
          (some "a@b.com") .rejected "home")
        (some "a@b.com") .rejected "security").currentPage = "security"
    ∧ (App.setCurrentPage
        (App.setCurrentPage
          { currentPage := "security"
            mounted := .security { email := "a@b.com", analysis := .object [("score", .number 85)] } }
          (some "a@b.com") .rejected "home")
        (some "a@b.com") .rejected "security").mounted.securityEmail? = some "a@b.com"
    ∧ (App.setCurrentPage
        (App.setCurrentPage
          { currentPage := "security"
            mounted := .security { email := "a@b.com", analysis := .object [("score", .number 85)] } }
          (some "a@b.com") .rejected "home")
        (some "a@b.com") .rejected "security").mounted.securityEmail? ≠ some ""
    ∧ requests (App.navigationEffects
        (App.setCurrentPage
          { currentPage := "security"
            mounted := .security { email := "a@b.com", analysis := .object [("score", .number 85)] } }
          (some "a@b.com") .rejected "home")
        (some "a@b.com") .rejected "security") = [.securityScore "a@b.com"] := by
  refine ⟨rfl, rfl, ?_, rfl⟩
  intro h
  have h' : (some "a@b.com" : Option String) = some "" := h
  exact absurd h' (by decide)

/-- Leaving `Home` for a page mounts that page afresh. -/
theorem setCurrentPage_from_home (app : App.State) (emailParam : Option String)
    (settle : Settlement) (hhome : app.mounted = .home) :
    (App.setCurrentPage app emailParam settle "home").mounted = .home
    ∧ (App.setCurrentPage app emailParam settle "phishing").mounted = .phishing {}
    ∧ (App.setCurrentPage app emailParam settle "validator").mounted = .validator {}
    ∧ (App.setCurrentPage app emailParam settle "security").mounted
        = .security (SecurityScore.mount emailParam settle) := by
  simp [App.setCurrentPage, hhome, App.renderPage, App.Mounted.component, App.mount]

/-- The email input of a `SecurityScore` mounted under a non-empty `email`
parameter is that parameter. -/
theorem mount_email_of_param (e : String) (settle : Settlement) (he : e ≠ "") :
    (SecurityScore.mount (some e) settle).email = e := by
  have hget : (some e : Option String).getD (({} : SecurityScore.State).email) ≠ "" := he
  simp only [SecurityScore.mount, SecurityScore.mountEffect, if_neg he,
    SecurityScore.analyzeSecurity, if_neg hget]
  cases settle <;> rfl

/-- Leaving `Home` for a page emits the mount effects of that page: none for
the phishing detector and the email validator, the mount effect of the
security view for 'security'. -/
theorem navigationEffects_from_home (app : App.State) (emailParam : Option String)
    (settle : Settlement) (hhome : app.mounted = .home) :
    App.navigationEffects app emailParam settle "phishing" = []
    ∧ App.navigationEffects app emailParam settle "validator" = []
    ∧ App.navigationEffects app emailParam settle "security"
        = (SecurityScore.mountEffect {} emailParam settle).trace := by
  simp [App.navigationEffects, hhome, App.renderPage, App.Mounted.component, App.mountEffects]

/-- The mount effect under a non-empty `email` parameter sets the email input,
marks the view in flight and issues the security-score request for the
parameter, and no other request. -/
theorem mountEffect_of_param (e : String) (settle : Settlement) (he : e ≠ "") :
    (∃ rest, (SecurityScore.mountEffect {} (some e) settle).trace
        = .setEmail e :: .setLoading true :: .fetch (.securityScore e) :: rest)
    ∧ requests (SecurityScore.mountEffect {} (some e) settle).trace = [.securityScore e] := by
  have hget : (some e : Option String).getD (({} : SecurityScore.State).email) ≠ "" := he
  simp only [SecurityScore.mountEffect, if_neg he, SecurityScore.analyzeSecurity, if_neg hget]
  cases settle <;> exact ⟨⟨_, rfl⟩, rfl⟩

/-- C15, amended. The navigation state starts at 'home'; every navigation
request issued by `Navbar`, `Home` or a page carries one of 'home',
'phishing', 'validator', 'security' and makes exactly that page current, with
its component mounted, from any state, so the current page stays one of the
four. From every state, navigating to 'home' and then to a page `v` yields
current page `v` with `v` mounted afresh: the phishing detector and the email
validator with their initial values (empty input, no result, not in flight,
no similar emails) and nothing emitted, and the security view with its
initial values and nothing emitted when the page URL has no `email` parameter
or an empty one. With a non-empty parameter `e` the mount effect of the
security view runs again on that entry: it calls `setEmail(e)`, then
`setLoading(true)`, then issues the security-score request for `e`, the only
request of the entry, and the email input of the view is `e`. -/
theorem navigation_total (app : App.State) (emailParam : Option String)
    (settle settle' : Settlement) :
    ({} : App.State).currentPage = "home"
    ∧ (∀ page ∈ Navbar.navigationRequests ++ Home.navigationRequests
          ++ PhishingDetector.navigationRequests ++ EmailValidator.navigationRequests
          ++ SecurityScore.navigationRequests,
        page ∈ ["home", "phishing", "validator", "security"]
        ∧ (App.setCurrentPage app emailParam settle page).currentPage
            ∈ ["home", "phishing", "validator", "security"])
    ∧ (∀ page : String,
        (App.setCurrentPage app emailParam settle page).currentPage = page
        ∧ (App.setCurrentPage app emailParam settle page).mounted.component
            = App.renderPage page)
    ∧ ((App.setCurrentPage (App.setCurrentPage app emailParam settle "home")
          emailParam settle' "home").currentPage = "home"
      ∧ (App.setCurrentPage (App.setCurrentPage app emailParam settle "home")
          emailParam settle' "home").mounted = .home)
    ∧ ((App.setCurrentPage (App.setCurrentPage app emailParam settle "home")
          emailParam settle' "phishing").currentPage = "phishing"
      ∧ (App.setCurrentPage (App.setCurrentPage app emailParam settle "home")
          emailParam settle' "phishing").mounted
          = .phishing { url := "", result := .null, loading := false }
      ∧ App.navigationEffects (App.setCurrentPage app emailParam settle "home")
          emailParam settle' "phishing" = [])
    ∧ ((App.setCurrentPage (App.setCurrentPage app emailParam settle "home")
          emailParam settle' "validator").currentPage = "validator"
      ∧ (App.setCurrentPage (App.setCurrentPage app emailParam settle "home")
          emailParam settle' "validator").mounted
          = .validator
              { email := "", result := .null, loading := false, similarEmails := .array [] }
      ∧ App.navigationEffects (App.setCurrentPage app emailParam settle "home")
          emailParam settle' "validator" = [])
    ∧ ((App.setCurrentPage (App.setCurrentPage app emailParam settle "home")
          emailParam settle' "security").currentPage = "security"
      ∧ (App.setCurrentPage (App.setCurrentPage app emailParam settle "home")
          emailParam settle' "security").mounted
          = .security (SecurityScore.mount emailParam settle')
      ∧ (App.setCurrentPage (App.setCurrentPage app emailParam settle "home")
          emailParam settle' "security").mounted
          = .security (SecurityScore.State.run {}
              (App.navigationEffects (App.setCurrentPage app emailParam settle "home")
                emailParam settle' "security"))
      ∧ (emailParam = none ∨ emailParam = some "" →
          (App.setCurrentPage (App.setCurrentPage app emailParam settle "home")
            emailParam settle' "security").mounted
            = .security { email := "", analysis := .null, loading := false }
          ∧ App.navigationEffects (App.setCurrentPage app emailParam settle "home")
              emailParam settle' "security" = [])
      ∧ (∀ e : String, emailParam = some e → e ≠ "" →
          (App.setCurrentPage (App.setCurrentPage app emailParam settle "home")
            emailParam settle' "security").mounted.securityEmail? = some e
          ∧ (∃ rest,
              App.navigationEffects (App.setCurrentPage app emailParam settle "home")
                emailParam settle' "security"
              = .setEmail e :: .setLoading true :: .fetch (.securityScore e) :: rest)
          ∧ requests
              (App.navigationEffects (App.setCurrentPage app emailParam settle "home")
                emailParam settle' "security") = [.securityScore e])) := by
  have hhome := setCurrentPage_home_mounted app emailParam settle
  obtain ⟨h1, h2, h3, h4⟩ :=
    setCurrentPage_from_home (App.setCurrentPage app emailParam settle "home")
      emailParam settle' hhome
  obtain ⟨e2, e3, e4⟩ :=
    navigationEffects_from_home (App.setCurrentPage app emailParam settle "home")
      emailParam settle' hhome
  refine ⟨rfl, ?_, ?_, ⟨rfl, h1⟩, ⟨rfl, h2, e2⟩, ⟨rfl, h3, e3⟩, rfl, h4, ?_, ?_, ?_⟩
  · intro page hpage
    have hmem : page ∈ ["home", "phishing", "validator", "security"] := by
      simp only [Navbar.navigationRequests, Home.navigationRequests,
        PhishingDetector.navigationRequests, EmailValidator.navigationRequests,
        SecurityScore.navigationRequests, List.mem_append, List.mem_cons,
        List.mem_singleton, List.not_mem_nil, or_false] at hpage ⊢
      tauto
    exact ⟨hmem, hmem⟩
  · intro page
    refine ⟨rfl, ?_⟩
    unfold App.setCurrentPage
    by_cases hsame : App.renderPage page = app.mounted.component
    · simp only [if_pos hsame]
      exact hsame.symm
    · simp only [if_neg hsame]
      cases App.renderPage page <;> rfl
  · rw [h4, e4]
    rfl
  · intro hparam
    rw [h4, e4]
    rcases hparam with rfl | rfl <;> exact ⟨rfl, rfl⟩
  · intro e he hne
    rw [h4, e4, he]
    refine ⟨?_, (mountEffect_of_param e settle' hne).1, (mountEffect_of_param e settle' hne).2⟩
    show some (SecurityScore.mount (some e) settle').email = some e
    rw [mount_email_of_param e settle' hne]

/-- Witness for the amended C15: from the validator showing a result, to
'home' and back, with no `email` parameter; the request
`onNavigate('validator')` of the security view; and from the security view
showing an analysis, to 'home' and back, under `email=a@b.com` with a body
that decodes to an analysis. -/
theorem navigation_total_witness :
    (App.setCurrentPage
        (App.setCurrentPage
          { currentPage := "validator"
            mounted := .validator
              { email := "a@b.com", result := .object [("valid", .bool true)] } }
          none .rejected "home")
        none .rejected "validator").mounted
      = .validator
          { email := "", result := .null, loading := false, similarEmails := .array [] }
    ∧ "validator" ∈ ["home", "phishing", "validator", "security"]
    ∧ ((App.setCurrentPage
          (App.setCurrentPage
            { currentPage := "security"
              mounted := .security
                { email := "a@b.com", analysis := .object [("score", .number 85)] } }
            (some "a@b.com") .rejected "home")
          (some "a@b.com") (.decoded (.object [("score", .number 85)]))
          "security").mounted.securityEmail? = some "a@b.com"
      ∧ (∃ rest,
          App.navigationEffects
            (App.setCurrentPage
              { currentPage := "security"
                mounted := .security
                  { email := "a@b.com", analysis := .object [("score", .number 85)] } }
              (some "a@b.com") .rejected "home")
            (some "a@b.com") (.decoded (.object [("score", .number 85)])) "security"
          = .setEmail "a@b.com" :: .setLoading true :: .fetch (.securityScore "a@b.com")
              :: rest)
      ∧ requests
          (App.navigationEffects
            (App.setCurrentPage
              { currentPage := "security"
                mounted := .security
                  { email := "a@b.com", analysis := .object [("score", .number 85)] } }
              (some "a@b.com") .rejected "home")
            (some "a@b.com") (.decoded (.object [("score", .number 85)])) "security")
        = [.securityScore "a@b.com"]) :=
  ⟨(navigation_total
      { currentPage := "validator"
        mounted := .validator
          { email := "a@b.com", result := .object [("valid", .bool true)] } }
      none .rejected .rejected).2.2.2.2.2.1.2.1,
   ((navigation_total
      { currentPage := "validator"
        mounted := .validator
          { email := "a@b.com", result := .object [("valid", .bool true)] } }
      none .rejected .rejected).2.1 "validator" (by decide)).1,
   (navigation_total
      { currentPage := "security"
        mounted := .security
          { email := "a@b.com", analysis := .object [("score", .number 85)] } }
      (some "a@b.com") .rejected (.decoded (.object [("score", .number 85)]))).2.2.2.2.2.2.2.2.2.2
        "a@b.com" rfl (by decide)⟩

/-! ## Submitting an empty input -/

/-- C16. With the empty email or URL, `validateEmail`, `detectPhishing` and
`analyzeSecurity` (called with no argument and the empty input, or with the
empty string) emit nothing: they complete normally, no request is issued and
input, result or analysis, similar emails and in-flight flag are exactly as
before, so a result that was displayed stays displayed. The mount effect of
the security view under an empty `email` parameter emits nothing either. -/
theorem empty_input_noop (ev : EmailValidator.State) (pd : PhishingDetector.State)
    (ss : SecurityScore.State) (arg : Option String) (settle : Settlement) :
    (ev.email = "" →
      (EmailValidator.validateEmail ev settle).trace = []
      ∧ (EmailValidator.validateEmail ev settle).completion = .ok ()
      ∧ requests (EmailValidator.validateEmail ev settle).trace = []
      ∧ ev.run (EmailValidator.validateEmail ev settle).trace = ev
      ∧ EmailValidator.showsResult (ev.run (EmailValidator.validateEmail ev settle).trace)
          = EmailValidator.showsResult ev)
    ∧ (pd.url = "" →
      (PhishingDetector.detectPhishing pd settle).trace = []
      ∧ (PhishingDetector.detectPhishing pd settle).completion = .ok ()
      ∧ requests (PhishingDetector.detectPhishing pd settle).trace = []
      ∧ pd.run (PhishingDetector.detectPhishing pd settle).trace = pd
      ∧ PhishingDetector.showsResult (pd.run (PhishingDetector.detectPhishing pd settle).trace)
          = PhishingDetector.showsResult pd)
    ∧ (arg.getD ss.email = "" →
      (SecurityScore.analyzeSecurity ss arg settle).trace = []
      ∧ (SecurityScore.analyzeSecurity ss arg settle).completion = .ok ()
      ∧ requests (SecurityScore.analyzeSecurity ss arg settle).trace = []
      ∧ ss.run (SecurityScore.analyzeSecurity ss arg settle).trace = ss)
    ∧ ((SecurityScore.mountEffect ss (some "") settle).trace = []
      ∧ requests (SecurityScore.mountEffect ss (some "") settle).trace = []
      ∧ SecurityScore.mount (some "") settle
          = { email := "", analysis := .null, loading := false }) := by
  refine ⟨?_, ?_, ?_, rfl, rfl, rfl⟩
  · intro h
    have htrace : EmailValidator.validateEmail ev settle = pure () := by
      unfold EmailValidator.validateEmail
      rw [if_pos h]
    rw [htrace]
    exact ⟨rfl, rfl, rfl, rfl, rfl⟩
  · intro h
    have htrace : PhishingDetector.detectPhishing pd settle = pure () := by
      unfold PhishingDetector.detectPhishing
      rw [if_pos h]
    rw [htrace]
    exact ⟨rfl, rfl, rfl, rfl, rfl⟩
  · intro h
    have htrace : SecurityScore.analyzeSecurity ss arg settle = pure () := by
      unfold SecurityScore.analyzeSecurity
      simp only [if_pos h]
    rw [htrace]
    exact ⟨rfl, rfl, rfl, rfl⟩

/-- Witness for C16: the validator and the detector each showing an earlier
result with the input cleared, and the security form with nothing typed. -/
theorem empty_input_noop_witness :
    EmailValidator.State.run
        { email := "", result := .object [("valid", .bool true)], loading := false,
          similarEmails := .array [.string "x"] }
        (EmailValidator.validateEmail
          { email := "", result := .object [("valid", .bool true)], loading := false,
            similarEmails := .array [.string "x"] }
          (.decoded .null)).trace
      = { email := "", result := .object [("valid", .bool true)], loading := false,
          similarEmails := .array [.string "x"] }
    ∧ requests (PhishingDetector.detectPhishing
        { url := "", result := .object [("risk_score", .number 65)] } (.decoded .null)).trace
      = []
    ∧ requests (SecurityScore.analyzeSecurity {} none (.decoded .null)).trace = [] :=
  ⟨((empty_input_noop
      { email := "", result := .object [("valid", .bool true)], loading := false,
        similarEmails := .array [.string "x"] }
      { url := "", result := .object [("risk_score", .number 65)] } {} none
      (.decoded .null)).1 rfl).2.2.2.1,
   ((empty_input_noop
      { email := "", result := .object [("valid", .bool true)], loading := false,
        similarEmails := .array [.string "x"] }
      { url := "", result := .object [("risk_score", .number 65)] } {} none
      (.decoded .null)).2.1 rfl).2.2.1,
   ((empty_input_noop
      { email := "", result := .object [("valid", .bool true)], loading := false,
        similarEmails := .array [.string "x"] }
      { url := "", result := .object [("risk_score", .number 65)] } {} none
      (.decoded .null)).2.2.1 rfl).2.2.1⟩

end PhishGuard
